import Mathlib

/- Shallow embedding of the STFS package decoder of this repository
   (crates stfs: files stfs.rs and sparse_reader.rs).  Machine integers are
   modelled as Nat, with explicit wrap-around only where the source can
   overflow.  Fallible operations return an explicit result type `PRes`
   that distinguishes ordinary error returns (the Rust Err path) from
   panics (process aborts); every Rust `expect`, `unwrap`, slice borrow,
   `Vec` index and `panic!` is modelled by a `crash` outcome. -/

inductive StfsError
  | invalidHeader
  | ioError
  | invalidPackageType
  deriving DecidableEq, Repr

inductive PanicKind
  | sliceOutOfBounds
  | readFail
  | invalidEnum
  | illegalBlock
  | invalidBlock
  | invalidFilesystem
  | corruptDirectory
  | todoUnimplemented
  | utf16Fail
  | utf8Fail
  | noNullTerminator
  | indexOutOfBounds
  deriving DecidableEq, Repr

inductive PRes (α : Type)
  | ok (val : α)
  | err (e : StfsError)
  | crash (k : PanicKind)
  deriving DecidableEq, Repr

def PRes.isOk {α : Type} : PRes α → Bool
  | .ok _ => true
  | _ => false

def PRes.isErr {α : Type} : PRes α → Bool
  | .err _ => true
  | _ => false

def PRes.map {α β : Type} (f : α → β) : PRes α → PRes β
  | .ok a => .ok (f a)
  | .err e => .err e
  | .crash k => .crash k

/- A read-only byte buffer: a length together with the byte at each
   offset.  This models the `&[u8]` input of the decoder. -/
structure ByteBuf where
  size : Nat
  data : Nat → Nat

/- The cursor-based parser monad: a `Cursor<&[u8]>` position in, a result
   together with the new position out. -/
def PM (α : Type) : Type := Nat → PRes (α × Nat)

instance : Monad PM where
  pure a := fun pos => .ok (a, pos)
  bind x f := fun pos =>
    match x pos with
    | .ok (a, pos2) => f a pos2
    | .err e => .err e
    | .crash k => .crash k

def getPos : PM Nat := fun pos => .ok (pos, pos)

def setPos (p : Nat) : PM Unit := fun _ => .ok ((), p)

def pmCrash {α : Type} (k : PanicKind) : PM α := fun _ => .crash k

def pmErr {α : Type} (e : StfsError) : PM α := fun _ => .err e

def pmLiftOption {α : Type} (k : PanicKind) : Option α → PM α
  | some a => pure a
  | none => pmCrash k

def pmLiftExcept {α : Type} : Except StfsError α → PM α
  | .ok a => pure a
  | .error e => pmErr e

/- Converts an I/O error into a panic, modelling `.expect(..)` /
   `.unwrap_or_else(.. panic ..)` applied to a cursor read. -/
def expectE {α : Type} (x : PM α) : PM α := fun pos =>
  match x pos with
  | .err _ => .crash .readFail
  | r => r

/- Cursor reads.  byteorder reads on a `Cursor<&[u8]>` fail with
   `UnexpectedEof` (an I/O error) when fewer bytes remain than needed. -/
def readU8 (buf : ByteBuf) : PM Nat := fun pos =>
  if pos + 1 ≤ buf.size then .ok (buf.data pos, pos + 1) else .err .ioError

def readU16BE (buf : ByteBuf) : PM Nat := fun pos =>
  if pos + 2 ≤ buf.size then
    .ok (buf.data pos * 0x100 + buf.data (pos + 1), pos + 2)
  else .err .ioError

def readU16LE (buf : ByteBuf) : PM Nat := fun pos =>
  if pos + 2 ≤ buf.size then
    .ok (buf.data (pos + 1) * 0x100 + buf.data pos, pos + 2)
  else .err .ioError

def readU24BE (buf : ByteBuf) : PM Nat := fun pos =>
  if pos + 3 ≤ buf.size then
    .ok (buf.data pos * 0x10000 + buf.data (pos + 1) * 0x100 + buf.data (pos + 2), pos + 3)
  else .err .ioError

def readU24LE (buf : ByteBuf) : PM Nat := fun pos =>
  if pos + 3 ≤ buf.size then
    .ok (buf.data (pos + 2) * 0x10000 + buf.data (pos + 1) * 0x100 + buf.data pos, pos + 3)
  else .err .ioError

def readU32BE (buf : ByteBuf) : PM Nat := fun pos =>
  if pos + 4 ≤ buf.size then
    .ok (buf.data pos * 0x1000000 + buf.data (pos + 1) * 0x10000 +
      buf.data (pos + 2) * 0x100 + buf.data (pos + 3), pos + 4)
  else .err .ioError

def readU32LE (buf : ByteBuf) : PM Nat := fun pos =>
  if pos + 4 ≤ buf.size then
    .ok (buf.data (pos + 3) * 0x1000000 + buf.data (pos + 2) * 0x10000 +
      buf.data (pos + 1) * 0x100 + buf.data pos, pos + 4)
  else .err .ioError

def readU64BE (buf : ByteBuf) : PM Nat := fun pos =>
  if pos + 8 ≤ buf.size then
    .ok (buf.data pos * 0x100000000000000 + buf.data (pos + 1) * 0x1000000000000 +
      buf.data (pos + 2) * 0x10000000000 + buf.data (pos + 3) * 0x100000000 +
      buf.data (pos + 4) * 0x1000000 + buf.data (pos + 5) * 0x10000 +
      buf.data (pos + 6) * 0x100 + buf.data (pos + 7), pos + 8)
  else .err .ioError

/- `read_exact` into a fixed-size array: fails with UnexpectedEof (an I/O
   error, not a panic) on truncation. -/
def readExact (buf : ByteBuf) (n : Nat) : PM (List Nat) := fun pos =>
  if pos + n ≤ buf.size then
    .ok ((List.range n).map (fun i => buf.data (pos + i)), pos + n)
  else .err .ioError

/- `input_byte_ref`: advances the cursor by `size` and borrows
   `&input[position..position + size]`.  The slice borrow panics when the
   end of the range lies past the end of the buffer.  Slices are
   represented by their (start, length) pair into the input buffer. -/
def input_byte_ref (buf : ByteBuf) (size : Nat) : PM (Nat × Nat) := fun pos =>
  if pos + size ≤ buf.size then .ok ((pos, size), pos + size)
  else .crash .sliceOutOfBounds

/- The bytes of a (start, length) slice of a buffer. -/
def sliceBytes (buf : ByteBuf) (s : Nat × Nat) : List Nat :=
  (List.range s.2).map (fun i => buf.data (s.1 + i))

/- ------------------------------------------------------------------ -/
/- Package sex and the block-address arithmetic (stfs.rs).            -/
/- ------------------------------------------------------------------ -/

inductive StfsPackageSex
  | Female
  | Male
  deriving DecidableEq, Repr

/- The enum discriminant (`sex as u8` / `as usize` in the source), used
   as a left-shift amount. -/
def sexBit : StfsPackageSex → Nat
  | .Female => 0
  | .Male => 1

def StfsPackageSex.block_step : StfsPackageSex → Nat × Nat
  | .Female => (0xAB, 0x718F)
  | .Male => (0xAC, 0x723A)

def HASHES_PER_HASH_TABLE : Nat := 0xAA

def HASHES_PER_HASH_TABLE_LEVEL (i : Nat) : Nat :=
  [HASHES_PER_HASH_TABLE,
   HASHES_PER_HASH_TABLE * HASHES_PER_HASH_TABLE,
   HASHES_PER_HASH_TABLE * HASHES_PER_HASH_TABLE * HASHES_PER_HASH_TABLE].getD i 0

def DATA_BLOCKS_PER_HASH_TREE_LEVEL (i : Nat) : Nat :=
  [1, HASHES_PER_HASH_TABLE, HASHES_PER_HASH_TABLE * HASHES_PER_HASH_TABLE].getD i 0

inductive HashTableLevel
  | First
  | Second
  | Third
  deriving DecidableEq, Repr

/- `HashTableMeta::compute_first_level_backing_hash_block_number`.  The
   `block_step` argument stands for the `self.block_step` field of
   `HashTableMeta`, which `parse` sets to `sex.block_step()`. -/
def compute_first_level_backing_hash_block_number
    (block_step : Nat × Nat) (block : Nat) (sex : StfsPackageSex) : Nat :=
  if block < HASHES_PER_HASH_TABLE then 0
  else
    let block_number := (block / HASHES_PER_HASH_TABLE) * block_step.1
    let block_number :=
      block_number + (((block / DATA_BLOCKS_PER_HASH_TREE_LEVEL 2) + 1) <<< sexBit sex)
    if block / DATA_BLOCKS_PER_HASH_TREE_LEVEL 2 = 0 then block_number
    else block_number + (1 <<< sexBit sex)

/- `HashTableMeta::compute_second_level_backing_hash_block_number`. -/
def compute_second_level_backing_hash_block_number
    (block_step : Nat × Nat) (block : Nat) (sex : StfsPackageSex) : Nat :=
  if block < DATA_BLOCKS_PER_HASH_TREE_LEVEL 2 then block_step.1
  else (1 <<< sexBit sex) + (block / DATA_BLOCKS_PER_HASH_TREE_LEVEL 2) * block_step.2

/- `HashTableMeta::compute_third_level_backing_hash_block_number`. -/
def compute_third_level_backing_hash_block_number (block_step : Nat × Nat) : Nat :=
  block_step.2

/- `StfsPackage::compute_data_block_num`. -/
def compute_data_block_num (sex : StfsPackageSex) (block : Nat) : Nat :=
  let addr := (((block + HASHES_PER_HASH_TABLE) / HASHES_PER_HASH_TABLE) <<< sexBit sex) + block
  if block < HASHES_PER_HASH_TABLE then addr
  else if block < DATA_BLOCKS_PER_HASH_TREE_LEVEL 2 then
    addr + (((addr + DATA_BLOCKS_PER_HASH_TREE_LEVEL 2) / DATA_BLOCKS_PER_HASH_TREE_LEVEL 2)
      <<< sexBit sex)
  else
    (1 <<< sexBit sex) +
      ((addr + ((block + DATA_BLOCKS_PER_HASH_TREE_LEVEL 2) / DATA_BLOCKS_PER_HASH_TREE_LEVEL 2))
        <<< sexBit sex)

/- A decoded hash-table entry.  The 20-byte hash is kept as a slice
   (start, length) into the input buffer. -/
structure HashEntry where
  block_hash : Nat × Nat
  status : Nat
  next_block : Nat
  deriving DecidableEq, Repr

/- The fields of a fully parsed `StfsPackage` that the block-address
   resolver, the directory walker and the extractor consume:
   the input buffer, the package sex, and the parts of `HashTableMeta`
   and of the STFS volume descriptor that those functions read. -/
structure StfsPackage where
  input : ByteBuf
  sex : StfsPackageSex
  block_step : Nat × Nat
  first_table_address : Nat
  block_separation : Nat
  allocated_block_count : Nat
  top_table_level : HashTableLevel
  top_table_entries : List HashEntry

/- `StfsPackage::block_to_addr`: panics on a block number above 2^24 - 1,
   otherwise a pure address computation. -/
def block_to_addr (pkg : StfsPackage) (block : Nat) : PRes Nat :=
  if block > 2 ^ 24 - 1 then .crash .invalidBlock
  else .ok ((compute_data_block_num pkg.sex block <<< 0xC) + pkg.first_table_address)

/- `StfsPackage::block_hash_address`.  Panics (crash) on a block number
   strictly above `allocated_block_count`; at root level Second it indexes
   the top-table `Vec` (a panic when out of bounds); at root level Third
   it additionally reads one status byte from the input, whose failure is
   turned into a panic by `unwrap_or_else`. -/
def block_hash_address (pkg : StfsPackage) (block : Nat) : PRes Nat :=
  if block > pkg.allocated_block_count then .crash .illegalBlock
  else
    let hash_addr :=
      (compute_first_level_backing_hash_block_number pkg.block_step block pkg.sex <<< 0xC) +
        pkg.first_table_address + (block % HASHES_PER_HASH_TABLE) * 0x18
    match pkg.top_table_level with
    | .First => .ok (hash_addr + ((pkg.block_separation &&& 2) <<< 0xB))
    | .Second =>
      match pkg.top_table_entries.get? (block / DATA_BLOCKS_PER_HASH_TREE_LEVEL 1) with
      | none => .crash .indexOutOfBounds
      | some e => .ok (hash_addr + ((e.status &&& 0x40) <<< 6))
    | .Third =>
      match pkg.top_table_entries.get? (block / DATA_BLOCKS_PER_HASH_TREE_LEVEL 2) with
      | none => .crash .indexOutOfBounds
      | some e =>
        let first_level_offset := (e.status &&& 0x40) <<< 6
        let position :=
          (compute_second_level_backing_hash_block_number pkg.block_step block pkg.sex <<< 0xC) +
            pkg.first_table_address + first_level_offset +
            (block % DATA_BLOCKS_PER_HASH_TREE_LEVEL 1) * 0x18
        if position + 0x14 + 1 ≤ pkg.input.size then
          .ok (hash_addr + ((pkg.input.data (position + 0x14) &&& 0x40) <<< 6))
        else .crash .readFail

/- `StfsPackage::block_hash_entry`: repeats the illegal-block guard, then
   reads a 24-byte hash entry at `block_hash_address`.  The slice borrow
   panics out of range; the status and next_block reads panic (expect) at
   end of input. -/
def block_hash_entry (pkg : StfsPackage) (block : Nat) : PRes HashEntry :=
  if block > pkg.allocated_block_count then .crash .illegalBlock
  else
    match block_hash_address pkg block with
    | .err e => .err e
    | .crash k => .crash k
    | .ok addr =>
      if addr + 0x14 ≤ pkg.input.size then
        if addr + 0x14 + 1 ≤ pkg.input.size then
          if addr + 0x18 ≤ pkg.input.size then
            .ok { block_hash := (addr, 0x14),
                  status := pkg.input.data (addr + 0x14),
                  next_block := pkg.input.data (addr + 0x15) * 0x10000 +
                    pkg.input.data (addr + 0x16) * 0x100 + pkg.input.data (addr + 0x17) }
          else .crash .readFail
        else .crash .readFail
      else .crash .sliceOutOfBounds

/- `StfsPackage::hash_table_skip_for_address`.  Pure arithmetic; the
   usize subtractions cannot underflow for the addresses the extractor
   passes (all are at or above `first_table_address`), and are modelled
   by truncated Nat subtraction. -/
def hash_table_skip_for_address (pkg : StfsPackage) (table_address : Nat) : Nat :=
  let block_number := (table_address - pkg.first_table_address) >>> 0xC
  if block_number = 0 then 0x1000 <<< sexBit pkg.sex
  else if block_number = pkg.block_step.2 then 0x3000 <<< sexBit pkg.sex
  else
    let block_number :=
      if block_number > pkg.block_step.2 then
        block_number - (pkg.block_step.2 + (1 <<< sexBit pkg.sex))
      else block_number
    if block_number = pkg.block_step.1 ∨ block_number % pkg.block_step.2 = 0 then
      0x2000 <<< sexBit pkg.sex
    else 0x1000 <<< sexBit pkg.sex

/- ------------------------------------------------------------------ -/
/- Root hash-table level (XContentHeader::root_hash_table_level).     -/
/- ------------------------------------------------------------------ -/

structure StfsVolumeDescriptor where
  size : Nat
  reserved : Nat
  block_separation : Nat
  file_table_block_count : Nat
  file_table_block_num : Nat
  top_hash_table_hash : Nat × Nat
  allocated_block_count : Nat
  unallocated_block_count : Nat
  deriving DecidableEq, Repr

structure SvodVolumeDescriptor where
  size : Nat
  block_cache_element_count : Nat
  worker_thread_processor : Nat
  worker_thread_priority : Nat
  root_hash : Nat × Nat
  flags : Nat
  data_block_count : Nat
  data_block_offset : Nat
  reserved : List Nat
  deriving DecidableEq, Repr

inductive FileSystem
  | STFS (vd : StfsVolumeDescriptor)
  | SVOD (vd : SvodVolumeDescriptor)
  deriving DecidableEq, Repr

/- `XContentHeader::root_hash_table_level`, as a function of the volume
   descriptor (the only part of the header it reads). -/
def root_hash_table_level (vd : FileSystem) : Except StfsError HashTableLevel :=
  match vd with
  | .STFS volume_descriptor =>
    if volume_descriptor.allocated_block_count ≤ HASHES_PER_HASH_TABLE then
      .ok .First
    else if volume_descriptor.allocated_block_count ≤ HASHES_PER_HASH_TABLE_LEVEL 1 then
      .ok .Second
    else if volume_descriptor.allocated_block_count ≤ HASHES_PER_HASH_TABLE_LEVEL 2 then
      .ok .Third
    else .error .invalidHeader
  | .SVOD _ => .error .invalidPackageType

/- ------------------------------------------------------------------ -/
/- SparseReader (sparse_reader.rs).                                   -/
/- ------------------------------------------------------------------ -/

structure SparseReader where
  mapping_index : Nat
  position : Nat
  deriving DecidableEq, Repr

/- The loop body of `<SparseReader as Read>::read`: iterates over
   `mappings.iter().skip(mapping_index).enumerate()`, copying from each
   mapping in turn.  `s0` is the reader state on entry; the loop only
   writes the state back in the `bytes_remaining == 0` arm, so falling off
   the end of the mappings returns the bytes read with the state
   unchanged. -/
def sparseReadAux (s0 : SparseReader) :
    List (List Nat) → Nat → Nat → List Nat → List Nat × SparseReader
  | [], _, _, acc => (acc, s0)
  | m :: ms, idx, bytesRemaining, acc =>
    let mappingStart := if idx = 0 then s0.position else 0
    let mappingLen := if idx = 0 then m.length - s0.position else m.length
    let bytesToCopy := min bytesRemaining mappingLen
    let acc2 := acc ++ (m.drop mappingStart).take bytesToCopy
    let rem2 := bytesRemaining - bytesToCopy
    if rem2 = 0 then
      let mi := idx + s0.mapping_index
      let pos := mappingStart + bytesToCopy
      if pos = m.length then (acc2, ⟨mi + 1, 0⟩) else (acc2, ⟨mi, pos⟩)
    else sparseReadAux s0 ms (idx + 1) rem2 acc2

/- `<SparseReader as Read>::read` with a destination buffer of length
   `bufLen`; returns the bytes written into the buffer prefix and the
   reader state after the call. -/
def SparseReader.read (mappings : List (List Nat)) (s : SparseReader) (bufLen : Nat) :
    List Nat × SparseReader :=
  if s.mapping_index ≥ mappings.length then ([], s)
  else sparseReadAux s (mappings.drop s.mapping_index) 0 bufLen []

/- The bytes not yet consumed by a reader state: the tail of the current
   mapping, then all later mappings. -/
def remainingBytes (mappings : List (List Nat)) (s : SparseReader) : List Nat :=
  match mappings.drop s.mapping_index with
  | [] => []
  | m :: ms => m.drop s.position ++ ms.flatten

/- ------------------------------------------------------------------ -/
/- UTF-16 / UTF-8 string readers (read_utf16_cstr,                    -/
/- read_utf8_with_max_len).                                           -/
/- ------------------------------------------------------------------ -/

/- The terminator scan of `read_utf16_cstr`: `for i in
   (0..input.len()).step_by(2)` probing `input[position + i]` and, when
   that byte is zero, `input[position + i + 1]`; indexing past the end of
   the buffer panics, and exhausting the loop without a terminator makes
   the following `expect` panic. -/
def utf16ScanZero (buf : ByteBuf) (position : Nat) : Nat → Nat → PRes Nat
  | 0, _ => .crash .noNullTerminator
  | fuel + 1, i =>
    if i < buf.size then
      if position + i < buf.size then
        if buf.data (position + i) = 0 then
          if position + i + 1 < buf.size then
            if buf.data (position + i + 1) = 0 then .ok (position + i)
            else utf16ScanZero buf position fuel (i + 2)
          else .crash .indexOutOfBounds
        else utf16ScanZero buf position fuel (i + 2)
      else .crash .indexOutOfBounds
    else .crash .noNullTerminator

/- `byte_range.chunks(2)` recombined big-endian; a trailing single byte
   would make the `chunk[1]` index panic. -/
def utf16Units : List Nat → PRes (List Nat)
  | [] => .ok []
  | [_] => .crash .indexOutOfBounds
  | a :: b :: rest => (utf16Units rest).map (fun us => (a * 0x100 + b) :: us)

/- Validity of a UTF-16 code-unit sequence (`String::from_utf16`). -/
def utf16Valid : List Nat → Bool
  | [] => true
  | u :: rest =>
    if 0xD800 ≤ u ∧ u ≤ 0xDBFF then
      match rest with
      | v :: rest2 => if 0xDC00 ≤ v ∧ v ≤ 0xDFFF then utf16Valid rest2 else false
      | [] => false
    else if 0xDC00 ≤ u ∧ u ≤ 0xDFFF then false
    else utf16Valid rest

/- `read_utf16_cstr`.  Returns the decoded code units; the new cursor
   position reproduces the source's double-counted
   `position + end_of_str_position + 2`. -/
def read_utf16_cstr (buf : ByteBuf) : PM (List Nat) := fun position =>
  match utf16ScanZero buf position buf.size 0 with
  | .err e => .err e
  | .crash k => .crash k
  | .ok endPos =>
    match utf16Units ((List.range (endPos - position)).map (fun j => buf.data (position + j))) with
    | .err e => .err e
    | .crash k => .crash k
    | .ok units =>
      if utf16Valid units then .ok (units, position + endPos + 2)
      else .crash .utf16Fail

/- The terminator scan of `read_utf8_with_max_len`: `for i in
   (0..input.len()).take(len)`, probing `input[position + i]`. -/
def utf8ScanZero (buf : ByteBuf) (position : Nat) (bound : Nat) : Nat → Nat → PRes (Option Nat)
  | 0, _ => .ok none
  | fuel + 1, i =>
    if i < bound then
      if position + i < buf.size then
        if buf.data (position + i) = 0 then .ok (some (position + i))
        else utf8ScanZero buf position bound fuel (i + 1)
      else .crash .indexOutOfBounds
    else .ok none

def utf8Cont (c : Nat) : Bool := decide (0x80 ≤ c ∧ c ≤ 0xBF)

/- Validity of a UTF-8 byte sequence (`String::from_utf8`). -/
def utf8Valid : List Nat → Bool
  | [] => true
  | b :: rest =>
    if b < 0x80 then utf8Valid rest
    else if 0xC2 ≤ b ∧ b ≤ 0xDF then
      match rest with
      | c :: rest2 => utf8Cont c && utf8Valid rest2
      | [] => false
    else if b = 0xE0 then
      match rest with
      | c :: d :: rest2 => decide (0xA0 ≤ c ∧ c ≤ 0xBF) && utf8Cont d && utf8Valid rest2
      | _ => false
    else if (0xE1 ≤ b ∧ b ≤ 0xEC) ∨ b = 0xEE ∨ b = 0xEF then
      match rest with
      | c :: d :: rest2 => utf8Cont c && utf8Cont d && utf8Valid rest2
      | _ => false
    else if b = 0xED then
      match rest with
      | c :: d :: rest2 => decide (0x80 ≤ c ∧ c ≤ 0x9F) && utf8Cont d && utf8Valid rest2
      | _ => false
    else if b = 0xF0 then
      match rest with
      | c :: d :: e :: rest2 =>
        decide (0x90 ≤ c ∧ c ≤ 0xBF) && utf8Cont d && utf8Cont e && utf8Valid rest2
      | _ => false
    else if 0xF1 ≤ b ∧ b ≤ 0xF3 then
      match rest with
      | c :: d :: e :: rest2 => utf8Cont c && utf8Cont d && utf8Cont e && utf8Valid rest2
      | _ => false
    else if b = 0xF4 then
      match rest with
      | c :: d :: e :: rest2 =>
        decide (0x80 ≤ c ∧ c ≤ 0x8F) && utf8Cont d && utf8Cont e && utf8Valid rest2
      | _ => false
    else false

/- `read_utf8_with_max_len`.  Returns the decoded bytes and leaves the
   cursor at `position + len`. -/
def read_utf8_with_max_len (buf : ByteBuf) (len : Nat) : PM (List Nat) := fun position =>
  match utf8ScanZero buf position (min len buf.size) (min len buf.size) 0 with
  | .err e => .err e
  | .crash k => .crash k
  | .ok found =>
    let endPos := found.getD (position + len)
    if endPos ≤ buf.size then
      let bytes := (List.range (endPos - position)).map (fun j => buf.data (position + j))
      if utf8Valid bytes then .ok (bytes, position + len)
      else .crash .utf8Fail
    else .crash .sliceOutOfBounds

/- ------------------------------------------------------------------ -/
/- Header enumerations.                                               -/
/- ------------------------------------------------------------------ -/

inductive PackageType
  | Con
  | Live
  | Pirs
  deriving DecidableEq, Repr

/- `PackageType::try_from(&[u8; 4])` on the four magic bytes. -/
def PackageType.tryFrom (value : List Nat) : Except StfsError PackageType :=
  if value = [0x43, 0x4F, 0x4E, 0x20] then .ok .Con
  else if value = [0x4C, 0x49, 0x56, 0x45] then .ok .Live
  else if value = [0x50, 0x49, 0x52, 0x53] then .ok .Pirs
  else .error .invalidHeader

inductive ConsoleType
  | DevKit
  | Retail
  deriving DecidableEq, Repr

def ConsoleType.tryFrom (v : Nat) : Option ConsoleType :=
  if v = 1 then some .DevKit else if v = 2 then some .Retail else none

/- `ConsoleTypeFlags::from_bits`: `None` when bits outside
   TESTKIT (0x40000000) | RECOVERY_GENERATED (0x80000000) are set. -/
def consoleTypeFlagsFromBits (v : Nat) : Option Nat :=
  if v &&& 0x3FFFFFFF = 0 then some v else none

inductive LicenseType
  | Unused
  | Unrestricted
  | ConsoleProfileLicense
  | WindowsProfileLicense
  | ConsoleLicense
  | MediaFlags
  | KeyVaultPrivileges
  | HyperVisorFlags
  | UserPrivileges
  deriving DecidableEq, Repr

def LicenseType.tryFrom (v : Nat) : Option LicenseType :=
  if v = 0x0000 then some .Unused
  else if v = 0xFFFF then some .Unrestricted
  else if v = 0x0009 then some .ConsoleProfileLicense
  else if v = 0x0003 then some .WindowsProfileLicense
  else if v = 0xF000 then some .ConsoleLicense
  else if v = 0xE000 then some .MediaFlags
  else if v = 0xD000 then some .KeyVaultPrivileges
  else if v = 0xC000 then some .HyperVisorFlags
  else if v = 0xB000 then some .UserPrivileges
  else none

inductive ContentType
  | ArcadeGame
  | AvatarAssetPack
  | AvatarItem
  | CacheFile
  | CommunityGame
  | GameDemo
  | GameOnDemand
  | GamerPicture
  | GamerTitle
  | GameTrailer
  | GameVideo
  | InstalledGame
  | Installer
  | IPTVPauseBuffer
  | LicenseStore
  | MarketPlaceContent
  | Movie
  | MusicVideo
  | PodcastVideo
  | Profile
  | Publisher
  | SavedGame
  | StorageDownload
  | Theme
  | Video
  | ViralVideo
  | XboxDownload
  | XboxOriginalGame
  | XboxSavedGame
  | Xbox360Title
  | XNA
  deriving DecidableEq, Repr

def ContentType.tryFrom (v : Nat) : Option ContentType :=
  if v = 0xD0000 then some .ArcadeGame
  else if v = 0x8000 then some .AvatarAssetPack
  else if v = 0x9000 then some .AvatarItem
  else if v = 0x40000 then some .CacheFile
  else if v = 0x2000000 then some .CommunityGame
  else if v = 0x80000 then some .GameDemo
  else if v = 0x7000 then some .GameOnDemand
  else if v = 0x20000 then some .GamerPicture
  else if v = 0xA0000 then some .GamerTitle
  else if v = 0xC0000 then some .GameTrailer
  else if v = 0x400000 then some .GameVideo
  else if v = 0x4000 then some .InstalledGame
  else if v = 0xB0000 then some .Installer
  else if v = 0x2000 then some .IPTVPauseBuffer
  else if v = 0xF0000 then some .LicenseStore
  else if v = 2 then some .MarketPlaceContent
  else if v = 0x100000 then some .Movie
  else if v = 0x300000 then some .MusicVideo
  else if v = 0x500000 then some .PodcastVideo
  else if v = 0x10000 then some .Profile
  else if v = 3 then some .Publisher
  else if v = 1 then some .SavedGame
  else if v = 0x50000 then some .StorageDownload
  else if v = 0x30000 then some .Theme
  else if v = 0x200000 then some .Video
  else if v = 0x600000 then some .ViralVideo
  else if v = 0x70000 then some .XboxDownload
  else if v = 0x5000 then some .XboxOriginalGame
  else if v = 0x60000 then some .XboxSavedGame
  else if v = 0x1000 then some .Xbox360Title
  else if v = 0xE0000 then some .XNA
  else none

inductive InstallerType
  | NoInstaller
  | SystemUpdate
  | TitleUpdate
  | SystemUpdateProgressCache
  | TitleUpdateProgressCache
  | TitleContentProgressCache
  deriving DecidableEq, Repr

/- `InstallerType::try_from` (the 0 discriminant is named `None` in the
   source). -/
def InstallerType.tryFrom (v : Nat) : Option InstallerType :=
  if v = 0 then some .NoInstaller
  else if v = 0x53555044 then some .SystemUpdate
  else if v = 0x54555044 then some .TitleUpdate
  else if v = 0x50245355 then some .SystemUpdateProgressCache
  else if v = 0x50245455 then some .TitleUpdateProgressCache
  else if v = 0x50245443 then some .TitleContentProgressCache
  else none

inductive OnlineContentResumeState
  | FileHeadersNotReady
  | NewFolder
  | NewFolderResumeAttempt1
  | NewFolderResumeAttempt2
  | NewFolderResumeAttemptUnknown
  | NewFolderResumeAttemptSpecific
  deriving DecidableEq, Repr

def OnlineContentResumeState.tryFrom (v : Nat) : Option OnlineContentResumeState :=
  if v = 0x46494C48 then some .FileHeadersNotReady
  else if v = 0x666F6C64 then some .NewFolder
  else if v = 0x666F6C31 then some .NewFolderResumeAttempt1
  else if v = 0x666F6C32 then some .NewFolderResumeAttempt2
  else if v = 0x666F6C3F then some .NewFolderResumeAttemptUnknown
  else if v = 0x666F6C40 then some .NewFolderResumeAttemptSpecific
  else none

inductive FileSystemType
  | STFS
  | SVOD
  | FATX
  deriving DecidableEq, Repr

def FileSystemType.tryFrom (v : Nat) : Option FileSystemType :=
  if v = 0 then some .STFS
  else if v = 1 then some .SVOD
  else if v = 2 then some .FATX
  else none

inductive SkeletonVersion
  | Nxe
  | Natal
  | NxeAndNatal
  deriving DecidableEq, Repr

def SkeletonVersion.tryFrom (v : Nat) : Option SkeletonVersion :=
  if v = 1 then some .Nxe
  else if v = 2 then some .Natal
  else if v = 3 then some .NxeAndNatal
  else none

/- The discriminants of `AssetSubcategory`; the enum is represented by
   its numeric value. -/
def assetSubcategoryValues : List Nat :=
  [0x44c, 0x68, 0x69, 0x67, 0x65, 100, 0x387, 0x38b, 0x386, 0x38a, 0x388, 900,
   0x389, 0x385, 0x2be, 700, 0x2bd, 600, 0x259, 0x1f6, 500, 0x1fc, 0x1f8, 0x1fb,
   0x1f9, 0x1f5, 0x1fa, 0x1fd, 0x1f7, 0x3ea, 0x3e9, 0x3e8, 210, 0xd0, 0xd1, 0xce,
   0xcc, 0xcb, 0xcd, 200, 0xcf, 0xc9, 0xca, 0x197, 0x193, 0x191, 0x196, 0x192,
   400, 0x195, 0x194, 0x131, 300, 0x132, 0x134, 0x12f, 0x12e, 0x135, 0x12d,
   0x133, 0x130, 0x322, 800, 0x323, 0x321]

def assetSubcategoryTryFrom (v : Nat) : Option Nat :=
  if assetSubcategoryValues.contains v then some v else none

/- ------------------------------------------------------------------ -/
/- Header records.                                                    -/
/- ------------------------------------------------------------------ -/

structure Certificate where
  pubkey_cert_size : Nat
  owner_console_id : List Nat
  owner_console_part_number : Nat × Nat
  owner_console_type : Option ConsoleType
  console_type_flags : Option Nat
  date_generation : Nat × Nat
  public_exponent : Nat
  public_modulus : Nat × Nat
  certificate_signature : Nat × Nat
  signature : Nat × Nat
  deriving DecidableEq, Repr

structure LicenseEntry where
  ty : LicenseType
  data : Nat
  bits : Nat
  flags : Nat
  deriving DecidableEq, Repr

structure Version where
  major : Nat
  minor : Nat
  build : Nat
  revision : Nat
  deriving DecidableEq, Repr

/- `impl From<u32> for Version`. -/
def Version.ofU32 (input : Nat) : Version :=
  { major := (input &&& 0xF0000000) >>> 28,
    minor := (input &&& 0x0F000000) >>> 24,
    build := (input &&& 0x00FFFF00) >>> 8,
    revision := input &&& 0xFF }

structure FullInstallerMeta where
  installer_base_version : Version
  installer_version : Version
  deriving DecidableEq, Repr

/- The progress-cache variant can never be constructed: building
   `InstallerProgressCache` evaluates `todo!()` for `cab_resume_data`,
   which panics first. -/
inductive InstallerMeta
  | FullInstaller (meta : FullInstallerMeta)
  | InstallerProgressCache (resume_state : OnlineContentResumeState)
      (current_file_index : Nat) (current_file_offset : Nat) (bytes_processed : Nat)
  deriving DecidableEq, Repr

structure AvatarAssetInformation where
  subcategory : Nat
  colorizable : Nat
  guid : Nat × Nat
  skeleton_version : SkeletonVersion
  deriving DecidableEq, Repr

structure MediaInformation where
  series_id : Nat × Nat
  season_id : Nat × Nat
  season_number : Nat
  episode_number : Nat
  deriving DecidableEq, Repr

inductive ContentMetadata
  | AvatarItem (info : AvatarAssetInformation)
  | Video (info : MediaInformation)
  deriving DecidableEq, Repr

structure XContentHeader where
  package_type : PackageType
  certificate : Option Certificate
  package_signature : Option (Nat × Nat)
  license_data : List LicenseEntry
  header_hash : Nat × Nat
  header_size : Nat
  content_type : ContentType
  metadata_version : Nat
  content_size : Nat
  media_id : Nat
  version : Nat
  base_version : Nat
  title_id : Nat
  platform : Nat
  executable_type : Nat
  disc_number : Nat
  disc_in_set : Nat
  savegame_id : Nat
  console_id : List Nat
  profile_id : List Nat
  volume_descriptor : FileSystem
  filesystem_type : FileSystemType
  enabled : Bool
  data_file_count : Nat
  data_file_combined_size : Nat
  device_id : Nat × Nat
  display_name : List Nat
  display_description : List Nat
  publisher_name : List Nat
  title_name : List Nat
  transfer_flags : Nat
  thumbnail_image_size : Nat
  thumbnail_image : Nat × Nat
  title_thumbnail_image_size : Nat
  title_image : Nat × Nat
  installer_type : Option InstallerType
  installer_meta : Option InstallerMeta
  content_metadata : Option ContentMetadata
  deriving DecidableEq, Repr

/- ------------------------------------------------------------------ -/
/- Header parsers.                                                    -/
/- ------------------------------------------------------------------ -/

/- `parse_certificate`.  The two `from_utf8(..).unwrap_or(INVALID_STR)`
   conversions cannot panic; the corresponding fields keep the raw byte
   slices. -/
def parse_certificate (buf : ByteBuf) : PM Certificate := do
  let pubkey_cert_size ← readU16BE buf
  let owner_console_id ← readExact buf 5
  let owner_console_part_number ← input_byte_ref buf 0x11
  let owner_console_type_raw ← readU32BE buf
  let console_type_flags := consoleTypeFlagsFromBits (owner_console_type_raw &&& 0xFFFFFFFC)
  let owner_console_type := ConsoleType.tryFrom (owner_console_type_raw &&& 0x3)
  let date_generation ← input_byte_ref buf 0x8
  let public_exponent ← readU32BE buf
  let public_modulus ← input_byte_ref buf 0x80
  let certificate_signature ← input_byte_ref buf 0x100
  let signature ← input_byte_ref buf 0x80
  pure { pubkey_cert_size, owner_console_id, owner_console_part_number,
         owner_console_type, console_type_flags, date_generation,
         public_exponent, public_modulus, certificate_signature, signature }

/- The 16-iteration license-table loop.  `u16::try_from(license >> 48)`
   cannot fail; `LicenseType::try_from(..).expect(..)` panics on an
   unknown discriminant. -/
def parse_licenses (buf : ByteBuf) : Nat → PM (List LicenseEntry)
  | 0 => pure []
  | n + 1 => do
    let license ← readU64BE buf
    let ty ← pmLiftOption .invalidEnum (LicenseType.tryFrom (license >>> 48))
    let bits ← readU32BE buf
    let flags ← readU32BE buf
    let rest ← parse_licenses buf n
    pure ({ ty, data := license &&& 0xFFFFFFFFFFFF, bits, flags } :: rest)

/- `StfsVolumeDescriptor::parse`. -/
def StfsVolumeDescriptor.parse (buf : ByteBuf) : PM StfsVolumeDescriptor := do
  let size ← readU8 buf
  let reserved ← readU8 buf
  let block_separation ← readU8 buf
  let file_table_block_count ← readU16LE buf
  let file_table_block_num ← readU24LE buf
  let top_hash_table_hash ← input_byte_ref buf 0x14
  let allocated_block_count ← readU32BE buf
  let unallocated_block_count ← readU32BE buf
  pure { size, reserved, block_separation, file_table_block_count,
         file_table_block_num, top_hash_table_hash, allocated_block_count,
         unallocated_block_count }

/- `SvodVolumeDescriptor::parse`. -/
def SvodVolumeDescriptor.parse (buf : ByteBuf) : PM SvodVolumeDescriptor := do
  let size ← readU8 buf
  let block_cache_element_count ← readU8 buf
  let worker_thread_processor ← readU8 buf
  let worker_thread_priority ← readU8 buf
  let root_hash ← input_byte_ref buf 0x14
  let flags ← readU8 buf
  let data_block_count ← readU24BE buf
  let data_block_offset ← readU24BE buf
  let reserved ← readExact buf 5
  pure { size, block_cache_element_count, worker_thread_processor,
         worker_thread_priority, root_hash, flags, data_block_count,
         data_block_offset, reserved }

/- `AvatarAssetInformation::parse` (little-endian reads, two panicking
   enum conversions). -/
def AvatarAssetInformation.parse (buf : ByteBuf) : PM AvatarAssetInformation := do
  let subcategory_raw ← readU32LE buf
  let subcategory ← pmLiftOption .invalidEnum (assetSubcategoryTryFrom subcategory_raw)
  let colorizable ← readU32LE buf
  let guid ← input_byte_ref buf 0x10
  let skeleton_raw ← readU8 buf
  let skeleton_version ← pmLiftOption .invalidEnum (SkeletonVersion.tryFrom skeleton_raw)
  pure { subcategory, colorizable, guid, skeleton_version }

/- `MediaInformation::parse`. -/
def MediaInformation.parse (buf : ByteBuf) : PM MediaInformation := do
  let series_id ← input_byte_ref buf 0x10
  let season_id ← input_byte_ref buf 0x10
  let season_number ← readU16BE buf
  let episode_number ← readU16BE buf
  pure { series_id, season_id, season_number, episode_number }

/- `parse_xcontent_header`. -/
def parse_xcontent_header (buf : ByteBuf) : PM XContentHeader := do
  let magic ← readExact buf 4
  let package_type ← pmLiftExcept (PackageType.tryFrom magic)
  -- The source guard `if let package_type = PackageType::Con` is an
  -- irrefutable binding, so the certificate branch is taken for every
  -- package type, not only CON.
  let certificate_val ← parse_certificate buf
  let certificate := some certificate_val
  let package_signature ←
    match package_type with
    | .Live | .Pirs => do
      let sig ← input_byte_ref buf 0x100
      pure (some sig)
    | _ => pure none
  setPos 0x22c
  let license_data ← parse_licenses buf 16
  let header_hash ← input_byte_ref buf 0x14
  let header_size ← readU32BE buf
  let content_type_raw ← readU32BE buf
  let content_type ← pmLiftOption .invalidEnum (ContentType.tryFrom content_type_raw)
  let metadata_version ← readU32BE buf
  let content_size ← readU64BE buf
  let media_id ← readU32BE buf
  let version ← readU32BE buf
  let base_version ← readU32BE buf
  let title_id ← readU32BE buf
  let platform ← readU8 buf
  let executable_type ← readU8 buf
  let disc_number ← readU8 buf
  let disc_in_set ← readU8 buf
  let savegame_id ← readU32BE buf
  let console_id ← readExact buf 5
  let profile_id ← readExact buf 8
  setPos 0x3a9
  let filesystem_type_raw ← readU32BE buf
  let filesystem_type ← pmLiftOption .invalidEnum (FileSystemType.tryFrom filesystem_type_raw)
  let volume_descriptor ←
    match filesystem_type with
    | .STFS => do
      setPos 0x379
      let vd ← StfsVolumeDescriptor.parse buf
      pure (FileSystem.STFS vd)
    | .SVOD => do
      let vd ← SvodVolumeDescriptor.parse buf
      pure (FileSystem.SVOD vd)
    | _ => pmCrash .invalidFilesystem
  let data_file_count ← readU32BE buf
  let data_file_combined_size ← readU64BE buf
  let content_metadata ←
    match content_type with
    | .AvatarItem => do
      setPos 0x3d9
      let info ← AvatarAssetInformation.parse buf
      pure (some (ContentMetadata.AvatarItem info))
    | .Video => do
      setPos 0x3d9
      let info ← MediaInformation.parse buf
      pure (some (ContentMetadata.Video info))
    | _ => pure none
  setPos 0x3fd
  let device_id ← input_byte_ref buf 0x14
  let display_name ← read_utf16_cstr buf
  setPos 0xD11
  let display_description ← read_utf16_cstr buf
  setPos 0x1611
  let publisher_name ← read_utf16_cstr buf
  setPos 0x1691
  let title_name ← read_utf16_cstr buf
  setPos 0x1711
  let transfer_flags ← readU8 buf
  let thumbnail_image_size ← readU32BE buf
  let title_thumbnail_image_size ← readU32BE buf
  let thumbnail_image ← input_byte_ref buf thumbnail_image_size
  setPos 0x571a
  let title_image ← input_byte_ref buf title_thumbnail_image_size
  setPos 0x971a
  -- u32 arithmetic `((header_size + 0xFFF) & 0xFFFFF000) - 0x971A`, with
  -- release-mode wrap-around on underflow.
  let rounded := ((header_size + 0xFFF) % 0x100000000) &&& 0xFFFFF000
  let installer_gap := (rounded + 0x100000000 - 0x971A) % 0x100000000
  let installer_pair ←
    if installer_gap > 0x15F4 then do
      let installer_type_raw ← readU32BE buf
      let it ← pmLiftOption .invalidEnum (InstallerType.tryFrom installer_type_raw)
      match it with
      | .SystemUpdate | .TitleUpdate => do
        let installer_base_version_raw ← readU32BE buf
        let installer_version_raw ← readU32BE buf
        pure (some it, some (InstallerMeta.FullInstaller
          { installer_base_version := Version.ofU32 installer_base_version_raw,
            installer_version := Version.ofU32 installer_version_raw }))
      | .SystemUpdateProgressCache | .TitleUpdateProgressCache
      | .TitleContentProgressCache => do
        let resume_state_raw ← readU32BE buf
        let _resume_state ←
          pmLiftOption .invalidEnum (OnlineContentResumeState.tryFrom resume_state_raw)
        let _current_file_index ← readU32BE buf
        let _current_file_offset ← readU64BE buf
        let _bytes_processed ← readU64BE buf
        let _high_date_time ← readU32BE buf
        let _low_date_time ← readU32BE buf
        -- `cab_resume_data: todo!(..)` makes this arm panic before the
        -- progress cache can be constructed.
        pmCrash .todoUnimplemented
      | _ => pure (some it, none)
    else pure (none, none)
  let installer_type := installer_pair.1
  let installer_meta := installer_pair.2
  let enabled := false
  pure { package_type, certificate, package_signature, license_data, header_hash,
         header_size, content_type, metadata_version, content_size, media_id,
         version, base_version, title_id, platform, executable_type, disc_number,
         disc_in_set, savegame_id, console_id, profile_id, volume_descriptor,
         filesystem_type, enabled, data_file_count, data_file_combined_size,
         device_id, display_name, display_description, publisher_name, title_name,
         transfer_flags, thumbnail_image_size, thumbnail_image,
         title_thumbnail_image_size, title_image, installer_type, installer_meta,
         content_metadata }

/- ------------------------------------------------------------------ -/
/- Directory walker (the record loop of StfsPackage::read_files) and  -/
/- the extractor (StfsPackage::extract_file).                         -/
/- ------------------------------------------------------------------ -/

structure StfsFileEntry where
  index : Nat
  name : List Nat
  flags : Nat
  block_count : Nat
  starting_block_num : Nat
  path_indicator : Nat
  file_size : Nat
  created_time_stamp : Nat
  access_time_stamp : Nat
  file_entry_address : Nat
  deriving DecidableEq, Repr

/- The fixed-field reads of one 64-byte file-entry record, after the
   name and the name-length byte.  Every read panics (expect) at end of
   input. -/
def decode_file_entry_fields (buf : ByteBuf) : PM (Nat × Nat × Nat × Nat × Nat × Nat) := do
  let block_count ← expectE (readU24LE buf)
  let p ← getPos
  setPos (p + 3)
  let starting_block_num ← expectE (readU24LE buf)
  let path_indicator ← expectE (readU16BE buf)
  let file_size ← expectE (readU32BE buf)
  let created_time_stamp ← expectE (readU32BE buf)
  let access_time_stamp ← expectE (readU32BE buf)
  pure (block_count, starting_block_num, path_indicator, file_size,
        created_time_stamp, access_time_stamp)

/- The `for file_entry_idx in 0..0x40` record loop of `read_files`, for
   one file-table block at `current_addr`, returning the decoded entries
   in order.  `remaining` counts the loop iterations still to run and
   `pos` is the cursor position.  Note the order of the two name-length
   tests: the `name_len & 0x3F == 0` continue comes first, so the
   `name_len == 0` break can never execute. -/
def read_files_block_loop (buf : ByteBuf) (block_idx : Nat) (current_addr : Nat) :
    Nat → Nat → Nat → PRes (List StfsFileEntry)
  | 0, _, _ => .ok []
  | remaining + 1, file_entry_idx, pos =>
    let file_entry_address := current_addr + file_entry_idx * 0x40
    match read_utf8_with_max_len buf 0x28 pos with
    | .err e => .err e
    | .crash k => .crash k
    | .ok (name, pos2) =>
      match expectE (readU8 buf) pos2 with
      | .err e => .err e
      | .crash k => .crash k
      | .ok (name_len, pos3) =>
        if name_len &&& 0x3F = 0 then
          read_files_block_loop buf block_idx current_addr remaining
            (file_entry_idx + 1) (file_entry_address + 0x40)
        else if name_len = 0 then .ok []
        else
          match decode_file_entry_fields buf pos3 with
          | .err e => .err e
          | .crash k => .crash k
          | .ok ((block_count, starting_block_num, path_indicator, file_size,
                  created_time_stamp, access_time_stamp), pos4) =>
            match read_files_block_loop buf block_idx current_addr remaining
                (file_entry_idx + 1) pos4 with
            | .err e => .err e
            | .crash k => .crash k
            | .ok rest =>
              .ok ({ index := block_idx * 0x40 + file_entry_idx, name,
                     flags := name_len >>> 6, block_count, starting_block_num,
                     path_indicator, file_size, created_time_stamp,
                     access_time_stamp, file_entry_address } :: rest)

/- The same record loop with the unreachable `name_len == 0` break
   removed.  This definition follows the amended claim's words: the
   walker skips every record whose name-length byte has low 6 bits zero
   (including a fully zero byte) and scans all 64 records of the block;
   it never terminates the loop early. -/
def read_files_block_loop_noBreak (buf : ByteBuf) (block_idx : Nat) (current_addr : Nat) :
    Nat → Nat → Nat → PRes (List StfsFileEntry)
  | 0, _, _ => .ok []
  | remaining + 1, file_entry_idx, pos =>
    let file_entry_address := current_addr + file_entry_idx * 0x40
    match read_utf8_with_max_len buf 0x28 pos with
    | .err e => .err e
    | .crash k => .crash k
    | .ok (name, pos2) =>
      match expectE (readU8 buf) pos2 with
      | .err e => .err e
      | .crash k => .crash k
      | .ok (name_len, pos3) =>
        if name_len &&& 0x3F = 0 then
          read_files_block_loop_noBreak buf block_idx current_addr remaining
            (file_entry_idx + 1) (file_entry_address + 0x40)
        else
          match decode_file_entry_fields buf pos3 with
          | .err e => .err e
          | .crash k => .crash k
          | .ok ((block_count, starting_block_num, path_indicator, file_size,
                  created_time_stamp, access_time_stamp), pos4) =>
            match read_files_block_loop_noBreak buf block_idx current_addr remaining
                (file_entry_idx + 1) pos4 with
            | .err e => .err e
            | .crash k => .crash k
            | .ok rest =>
              .ok ({ index := block_idx * 0x40 + file_entry_idx, name,
                     flags := name_len >>> 6, block_count, starting_block_num,
                     path_indicator, file_size, created_time_stamp,
                     access_time_stamp, file_entry_address } :: rest)

/- One whole file-table block: 0x40 records starting at `current_addr`
   with the cursor set to `current_addr` (`reader.set_position`). -/
def read_files_block (buf : ByteBuf) (block_idx : Nat) (current_addr : Nat) :
    PRes (List StfsFileEntry) :=
  read_files_block_loop buf block_idx current_addr 0x40 0 current_addr

/- The `while data_remaining > 0` loop of the hash-table-interrupted
   consecutive path of `extract_file`.  Mappings are recorded as
   (start, length) slices of the package input; an out-of-range slice
   borrow panics.  The loop removes at least one remaining byte per
   iteration, so running it with fuel equal to the initial
   data_remaining reproduces the while loop exactly (fuel 0 forces
   data_remaining 0, where the loop exits). -/
def extract_consecutive_loop (pkg : StfsPackage) :
    Nat → Nat → Nat → List (Nat × Nat) → PRes (List (Nat × Nat))
  | 0, _, _, acc => .ok acc
  | fuel + 1, next_address, data_remaining, acc =>
    if data_remaining = 0 then .ok acc
    else
      let read_len := min (HASHES_PER_HASH_TABLE * 0x1000) data_remaining
      if next_address + read_len ≤ pkg.input.size then
        extract_consecutive_loop pkg fuel
          (next_address + read_len + hash_table_skip_for_address pkg (next_address + read_len))
          (data_remaining - read_len) (acc ++ [(next_address, read_len)])
      else .crash .sliceOutOfBounds

/- The `for _ in 0..block_count` loop of the chained path of
   `extract_file`: slice the current block, then follow its level-0 hash
   entry's `next_block`. -/
def extract_chained_loop (pkg : StfsPackage) :
    Nat → Nat → Nat → List (Nat × Nat) → PRes (List (Nat × Nat))
  | 0, _, _, acc => .ok acc
  | n + 1, block, data_remaining, acc =>
    let read_len := min 0x1000 data_remaining
    match block_to_addr pkg block with
    | .err e => .err e
    | .crash k => .crash k
    | .ok block_address =>
      if block_address + read_len ≤ pkg.input.size then
        match block_hash_entry pkg block with
        | .err e => .err e
        | .crash k => .crash k
        | .ok hash_entry =>
          extract_chained_loop pkg n hash_entry.next_block
            (data_remaining - read_len) (acc ++ [(block_address, read_len)])
      else .crash .sliceOutOfBounds

/- `StfsPackage::extract_file`, up to the construction of the list of
   byte mappings that are afterwards handed to `SparseReader` /
   `read_to_end` and written to the output file.  A zero-size file
   returns at once with no mappings. -/
def extract_file (pkg : StfsPackage) (entry : StfsFileEntry) : PRes (List (Nat × Nat)) :=
  if entry.file_size = 0 then .ok []
  else
    match block_to_addr pkg entry.starting_block_num with
    | .err e => .err e
    | .crash k => .crash k
    | .ok start_address =>
      if entry.flags &&& 1 ≠ 0 then
        let blocks_until_hash_table :=
          (compute_first_level_backing_hash_block_number pkg.block_step
              entry.starting_block_num pkg.sex + pkg.block_step.1)
            - ((start_address - pkg.first_table_address) >>> 0xC)
        if entry.block_count ≤ blocks_until_hash_table then
          if start_address + entry.file_size ≤ pkg.input.size then
            .ok [(start_address, entry.file_size)]
          else .crash .sliceOutOfBounds
        else extract_consecutive_loop pkg entry.file_size start_address entry.file_size []
      else
        let block_count :=
          entry.file_size / 0x1000 + (if entry.file_size % 0x1000 ≠ 0 then 1 else 0)
        extract_chained_loop pkg block_count entry.starting_block_num entry.file_size []

/- ------------------------------------------------------------------ -/
/- Concrete packages and buffers used by the individual claims.       -/
/- ------------------------------------------------------------------ -/

def zeroBuf3000 : ByteBuf := ⟨0x3000, fun _ => 0⟩

/- A Female package with `first_table_address = 0x1000` (the scenario
   parameters of the specification), root hash level L0, an all-zero
   0x3000-byte input. -/
def pkgFemale : StfsPackage :=
  { input := zeroBuf3000, sex := .Female, block_step := (0xAB, 0x718F),
    first_table_address := 0x1000, block_separation := 0,
    allocated_block_count := 0x100, top_table_level := .First,
    top_table_entries := [] }

def pkgMale : StfsPackage :=
  { pkgFemale with sex := .Male, block_step := (0xAC, 0x723A) }

/- As pkgFemale but with `allocated_block_count = 100`, small enough that
   the hash entry of the boundary block number 100 lies inside the
   buffer. -/
def pkgBoundary : StfsPackage := { pkgFemale with allocated_block_count := 100 }

/- A consecutive-flagged 33-byte single-block file starting at logical
   block 0. -/
def entryConsec33 : StfsFileEntry :=
  { index := 0, name := [], flags := 1, block_count := 1, starting_block_num := 0,
    path_indicator := 0xFFFF, file_size := 33, created_time_stamp := 0,
    access_time_stamp := 0, file_entry_address := 0 }

/- Input whose level-0 hash entry for block 0 (at 0x1000, entry 0) has
   `next_block = 0xFFFFFF`. -/
def chainTermBuf : ByteBuf :=
  ⟨0x3000, fun i => if i = 0x1015 ∨ i = 0x1016 ∨ i = 0x1017 then 0xFF else 0⟩

def pkgChainTerm : StfsPackage := { pkgFemale with input := chainTermBuf }

/- A chained (flags bit 0 clear) file of 0x1001 bytes starting at block
   0: the chain hits `next_block = 0xFFFFFF` after one block while one
   byte is still unread. -/
def entryChained4097 : StfsFileEntry :=
  { entryConsec33 with flags := 0, block_count := 2, file_size := 0x1001 }

/- A file-table block in which slot 0 is a deleted record (name-length
   byte 0) and slot 1 is a live record named "A" with
   `path_indicator = 0xFFFF`. -/
def walkerBuf : ByteBuf :=
  ⟨0x1000, fun i =>
    if i = 0x40 then 0x41
    else if i = 0x68 then 1
    else if i = 0x72 then 0xFF
    else if i = 0x73 then 0xFF
    else 0⟩

/- A minimal well-formed header image: the given magic, all-zero license
   table, `header_size = 0xA000` at 0x340, the given content type at
   0x344, STFS filesystem type, zeroed volume descriptor, empty display
   strings and thumbnails. -/
def headerImage (magic : List Nat) (contentType : Nat) (fsTypeByte : Nat) : ByteBuf :=
  ⟨0x6000, fun i =>
    if i < 4 then magic.getD i 0
    else if i = 0x342 then 0xA0
    else if i = 0x344 then contentType / 0x1000000 % 0x100
    else if i = 0x345 then contentType / 0x10000 % 0x100
    else if i = 0x346 then contentType / 0x100 % 0x100
    else if i = 0x347 then contentType % 0x100
    else if i = 0x3ac then fsTypeByte
    else 0⟩

def pirsMagic : List Nat := [0x50, 0x49, 0x52, 0x53]

def conMagic : List Nat := [0x43, 0x4F, 0x4E, 0x20]

def pirsBuf : ByteBuf := headerImage pirsMagic 1 0

def badContentTypeBuf : ByteBuf := headerImage pirsMagic 5 0

def badFsBuf : ByteBuf := headerImage pirsMagic 1 7

def badMagicBuf : ByteBuf := headerImage [0x58, 0x58, 0x58, 0x58] 1 0

/- The PIRS image truncated to 0x330 bytes: the licence table still fits,
   the 0x14-byte header-hash slice borrow at 0x32C does not. -/
def truncatedSliceBuf : ByteBuf := ⟨0x330, (headerImage pirsMagic 1 0).data⟩

/- The PIRS image truncated to 5 bytes: the first certificate read
   (a cursor read, not a slice borrow) hits end of input. -/
def truncatedReadBuf : ByteBuf := ⟨5, (headerImage pirsMagic 1 0).data⟩

/- An STFS volume descriptor whose only non-zero field is the allocated
   block count; used to state properties of `root_hash_table_level`. -/
def mkStfsVD (c : Nat) : StfsVolumeDescriptor :=
  { size := 0, reserved := 0, block_separation := 0, file_table_block_count := 0,
    file_table_block_num := 0, top_hash_table_hash := (0, 0),
    allocated_block_count := c, unallocated_block_count := 0 }

/- The numeric index of a hash-table level (L0 = 0, L1 = 1, L2 = 2). -/
def levelIndex : HashTableLevel → Nat
  | .First => 0
  | .Second => 1
  | .Third => 2

/- ------------------------------------------------------------------ -/
/- Theorems.                                                          -/
/- ------------------------------------------------------------------ -/

/- When more bytes are asked for than all mappings past the current one
   hold, the copy loop falls off the end of the mapping list and returns
   the entry state unchanged. -/
lemma sparseReadAux_consume_all (s0 : SparseReader) (ms : List (List Nat))
    (idx rem : Nat) (acc : List Nat) (hidx : idx ≠ 0)
    (h : (ms.map List.length).sum < rem) :
    sparseReadAux s0 ms idx rem acc = (acc ++ ms.flatten, s0) := by
  induction ms generalizing idx rem acc with
  | nil => simp [sparseReadAux]
  | cons m tail ih =>
    simp only [List.map_cons, List.sum_cons] at h
    simp only [sparseReadAux, if_neg hidx]
    have hmin : min rem m.length = m.length := by omega
    rw [hmin]
    have hrem : ¬ (rem - m.length = 0) := by omega
    rw [if_neg hrem]
    rw [ih (idx + 1) (rem - m.length) _ (by omega) (by omega)]
    simp [List.flatten_cons]

/- A read whose destination buffer is strictly larger than the bytes
   remaining returns exactly those bytes and leaves the state
   untouched. -/
lemma sparseRead_overlong (mappings : List (List Nat)) (s : SparseReader)
    (bufLen : Nat) (h : (remainingBytes mappings s).length < bufLen) :
    SparseReader.read mappings s bufLen = (remainingBytes mappings s, s) := by
  unfold SparseReader.read
  by_cases hmi : s.mapping_index ≥ mappings.length
  · rw [if_pos hmi]
    have hdrop : mappings.drop s.mapping_index = [] := List.drop_eq_nil_of_le hmi
    unfold remainingBytes
    rw [hdrop]
  · rw [if_neg hmi]
    cases hdrop : mappings.drop s.mapping_index with
    | nil =>
      exfalso
      have := List.drop_eq_nil_iff.mp hdrop
      omega
    | cons m tail =>
      have hrem : remainingBytes mappings s = m.drop s.position ++ tail.flatten := by
        unfold remainingBytes
        rw [hdrop]
      rw [hrem] at h
      simp only [List.length_append, List.length_drop, List.length_flatten] at h
      simp only [sparseReadAux, if_pos rfl, if_true, ite_true]
      have hmin : min bufLen (m.length - s.position) = m.length - s.position := by omega
      rw [hmin]
      have hrem2 : ¬ (bufLen - (m.length - s.position) = 0) := by omega
      rw [if_neg hrem2]
      have htake : (m.drop s.position).take (m.length - s.position) = m.drop s.position := by
        rw [← List.length_drop]
        exact List.take_length _
      rw [htake]
      rw [sparseReadAux_consume_all s tail 1 _ _ (by omega) (by omega)]
      rw [hrem]
      simp

/-- Claim C9: if SparseReader::read is called with a destination buffer
strictly larger than the total number of unread bytes remaining across
the mappings, it copies those remaining bytes and returns their count but
does not update mapping_index or position; an immediately subsequent read
call therefore returns the same bytes again instead of 0. -/
theorem c9_sparse_reader_overlong_read (mappings : List (List Nat))
    (s : SparseReader) (bufLen : Nat)
    (h : (remainingBytes mappings s).length < bufLen) :
    SparseReader.read mappings s bufLen = (remainingBytes mappings s, s) ∧
    SparseReader.read mappings (SparseReader.read mappings s bufLen).2 bufLen =
      (remainingBytes mappings s, s) := by
  have h1 := sparseRead_overlong mappings s bufLen h
  refine ⟨h1, ?_⟩
  rw [h1]
  exact h1

/-- Claim C9 witness: the reader holding [1, 2, 3] at position 1 has two
bytes left; a 5-byte read returns [2, 3] twice in a row with the state
stuck at position 1. -/
theorem c9_sparse_reader_overlong_read_witness :
    (remainingBytes [[1, 2, 3]] ⟨0, 1⟩).length < 5 ∧
    SparseReader.read [[1, 2, 3]] ⟨0, 1⟩ 5 = ([2, 3], ⟨0, 1⟩) ∧
    SparseReader.read [[1, 2, 3]] (SparseReader.read [[1, 2, 3]] ⟨0, 1⟩ 5).2 5 =
      ([2, 3], ⟨0, 1⟩) := by
  have h := c9_sparse_reader_overlong_read [[1, 2, 3]] ⟨0, 1⟩ 5 (by decide)
  have hr : remainingBytes [[1, 2, 3]] ⟨0, 1⟩ = [2, 3] := by decide
  exact ⟨by decide, by rw [h.1, hr], by rw [h.2, hr]⟩

/-- Claim C1: for a decoded file entry with a valid block chain, whose
file_size is 33 bytes on the consecutive fast path, extract_file builds
mappings holding exactly file_size bytes, but the SparseReader
read_to_end loop that writes them to the output file never reaches
end-of-file: once 32 bytes have been consumed, every further read
returns the final byte again with the reader state unchanged, so the
output file never receives exactly 33 bytes (the claim's guarantee
fails; only the file_size = 0 early return holds). -/
theorem c1_extract_file_reader_never_terminates :
    extract_file pkgFemale entryConsec33 = .ok [(0x2000, 33)] ∧
    entryConsec33.file_size = 33 ∧
    sliceBytes pkgFemale.input (0x2000, 33) = List.replicate 33 0 ∧
    SparseReader.read [List.replicate 33 0] ⟨0, 0⟩ 32 =
      (List.replicate 32 0, ⟨0, 32⟩) ∧
    SparseReader.read [List.replicate 33 0] ⟨0, 32⟩ 32 = ([0], ⟨0, 32⟩) ∧
    SparseReader.read [List.replicate 33 0] ⟨0, 32⟩ 4096 = ([0], ⟨0, 32⟩) ∧
    (extract_file pkgFemale { entryConsec33 with file_size := 0 }) = .ok [] := by
  refine ⟨by decide, by decide, by decide, by decide, by decide, by decide, by decide⟩

/-- Claim C2 counterexample: on the code, a Female package with
first_table_address = 0x1000 maps block 170 to 0xAE000, not 0xAD000, and
a Male package maps block 170 to 0xB1000, not 0xAF000. -/
theorem c2_block_to_addr_counterexample :
    block_to_addr pkgFemale 170 = .ok 0xAE000 ∧ 0xAD000 < 0xAE000 ∧
    block_to_addr pkgMale 170 = .ok 0xB1000 ∧ 0xAF000 < 0xB1000 := by
  refine ⟨by decide, by decide, by decide, by decide⟩

/-- Claim C2 (amended): for a Female package with first_table_address =
0x1000, block_to_addr(0) = 0x2000 and block_to_addr(170) = 0xAE000; for a
Male package with first_table_address = 0x1000, block_to_addr(170) =
0xB1000. -/
theorem c2_block_to_addr_scenarios :
    block_to_addr pkgFemale 0 = .ok 0x2000 ∧
    block_to_addr pkgFemale 170 = .ok 0xAE000 ∧
    block_to_addr pkgMale 170 = .ok 0xB1000 := by
  refine ⟨by decide, by decide, by decide⟩

/-- Claim C4: decoding a package whose 4-byte magic is PIRS yields
package_type = Pirs, but the console certificate IS parsed and stored
(certificate is Some, not None), because the source guard
`if let package_type = PackageType::Con` is an irrefutable binding that
matches every package type. -/
theorem c4_pirs_certificate_parsed :
    PRes.map (fun hp => hp.1.package_type) (parse_xcontent_header pirsBuf 0) =
      .ok .Pirs ∧
    PRes.map (fun hp => hp.1.certificate.isSome) (parse_xcontent_header pirsBuf 0) =
      .ok true := by
  refine ⟨by decide, by decide⟩

/-- Claim C3 counterexample: on a buffer that is well-formed up to an
unknown content-type value (5) at offset 0x344, decoding neither returns
an error value nor succeeds: it panics (ContentType::try_from(..)
.expect(..)), aborting the process. -/
theorem c3_decoder_panic_counterexample :
    parse_xcontent_header badContentTypeBuf 0 = .crash .invalidEnum ∧
    PRes.isErr (parse_xcontent_header badContentTypeBuf 0) = false ∧
    PRes.isOk (parse_xcontent_header badContentTypeBuf 0) = false := by
  refine ⟨by decide, by decide, by decide⟩

/-- Claim C3 (amended): on an unknown magic the decoder returns
InvalidHeader, and truncation at a cursor read returns IoError; but an
unknown content type, an unknown filesystem type, and truncation at a
slice borrow make the decoder panic (abort) rather than return an
error. -/
theorem c3_decoder_error_behavior :
    parse_xcontent_header badMagicBuf 0 = .err .invalidHeader ∧
    parse_xcontent_header truncatedReadBuf 0 = .err .ioError ∧
    parse_xcontent_header badContentTypeBuf 0 = .crash .invalidEnum ∧
    parse_xcontent_header badFsBuf 0 = .crash .invalidEnum ∧
    parse_xcontent_header truncatedSliceBuf 0 = .crash .sliceOutOfBounds := by
  refine ⟨by decide, by decide, by decide, by decide, by decide⟩

/-- Claim C7 counterexample: on the chained path, a next_block of
0xFFFFFF reached while one byte is still unread does not make extraction
fail with InvalidHeader (no error value is returned at all): the next
loop iteration address-translates block 0xFFFFFF and panics on the
out-of-range slice borrow. -/
theorem c7_chain_terminator_counterexample :
    PRes.isErr (extract_file pkgChainTerm entryChained4097) = false ∧
    PRes.isOk (extract_file pkgChainTerm entryChained4097) = false := by
  refine ⟨by decide, by decide⟩

/-- Claim C7 (amended): on the chained extraction path (flags bit 0
clear), encountering a next_block value of 0xFFFFFF before the remaining
byte count reaches zero causes extraction to abort with a panic (an
out-of-range slice borrow at the address computed for block 0xFFFFFF);
extract_file performs no 0xFFFFFF check and cannot return
InvalidHeader. -/
theorem c7_chain_terminator_panics :
    extract_file pkgChainTerm entryChained4097 = .crash .sliceOutOfBounds := by
  decide

/-- Claim C5 counterexample: in a file-table block whose slot 0 has a
zero name-length byte and whose slot 1 holds a live record named "A",
the record loop does not terminate at slot 0 (which would decode no
record): the zero record is skipped by the low-6-bits check and the
slot-1 record is decoded. -/
theorem c5_walker_no_terminate_counterexample :
    read_files_block walkerBuf 0 0 =
      .ok [{ index := 1, name := [0x41], flags := 0, block_count := 0,
             starting_block_num := 0, path_indicator := 0xFFFF, file_size := 0,
             created_time_stamp := 0, access_time_stamp := 0,
             file_entry_address := 0x40 }] := by
  decide

/-- Claim C5 (amended): while reading the 64 file-entry records of a
file-table block, the directory walker skips (continues past) every
record whose low 6 bits of the name-length byte are zero — including a
record whose whole name-length byte is zero.  The terminate-on-zero
branch is unreachable (a zero byte already has low 6 bits zero), so the
loop is equivalent to the same loop with the break removed, which scans
all 64 records. -/
theorem c5_walker_skips_deleted_slots (buf : ByteBuf) (block_idx current_addr : Nat)
    (remaining file_entry_idx pos : Nat) :
    read_files_block_loop buf block_idx current_addr remaining file_entry_idx pos =
      read_files_block_loop_noBreak buf block_idx current_addr remaining
        file_entry_idx pos := by
  induction remaining generalizing file_entry_idx pos with
  | zero => rfl
  | succ n ih =>
    simp only [read_files_block_loop, read_files_block_loop_noBreak]
    cases h1 : read_utf8_with_max_len buf 0x28 pos with
    | err e => rfl
    | crash k => rfl
    | ok v =>
      obtain ⟨name, pos2⟩ := v
      dsimp only
      cases h2 : expectE (readU8 buf) pos2 with
      | err e => rfl
      | crash k => rfl
      | ok v2 =>
        obtain ⟨name_len, pos3⟩ := v2
        dsimp only
        by_cases hz : name_len &&& 0x3F = 0
        · simp only [if_pos hz]
          exact ih (file_entry_idx + 1) (current_addr + file_entry_idx * 0x40 + 0x40)
        · have hnz : ¬ name_len = 0 := by
            intro h0
            subst h0
            exact hz (by decide)
          simp only [if_neg hz, if_neg hnz]
          cases h3 : decode_file_entry_fields buf pos3 with
          | err e => rfl
          | crash k => rfl
          | ok v3 =>
            obtain ⟨⟨block_count, starting_block_num, path_indicator, file_size,
              created_time_stamp, access_time_stamp⟩, pos4⟩ := v3
            dsimp only
            rw [ih (file_entry_idx + 1) pos4]

/-- Claim C6: the root hash-table level is the smallest level L in
{L0, L1, L2} with allocated_block_count ≤ HASHES_PER_LEVEL[L]
(170, 28900, 4913000); a count above 4913000 yields InvalidHeader; and
170 gives L0, 171 gives L1, 28900 gives L1, 28901 gives L2. -/
theorem c6_root_hash_table_level :
    (∀ c l, root_hash_table_level (FileSystem.STFS (mkStfsVD c)) = .ok l ↔
      (c ≤ HASHES_PER_HASH_TABLE_LEVEL (levelIndex l) ∧
       ∀ j, j < levelIndex l → HASHES_PER_HASH_TABLE_LEVEL j < c)) ∧
    (∀ c, 4913000 < c →
      root_hash_table_level (FileSystem.STFS (mkStfsVD c)) = .error .invalidHeader) ∧
    root_hash_table_level (FileSystem.STFS (mkStfsVD 170)) = .ok .First ∧
    root_hash_table_level (FileSystem.STFS (mkStfsVD 171)) = .ok .Second ∧
    root_hash_table_level (FileSystem.STFS (mkStfsVD 28900)) = .ok .Second ∧
    root_hash_table_level (FileSystem.STFS (mkStfsVD 28901)) = .ok .Third := by
  have hL0 : HASHES_PER_HASH_TABLE_LEVEL 0 = 170 := rfl
  have hL1 : HASHES_PER_HASH_TABLE_LEVEL 1 = 28900 := rfl
  have hL2 : HASHES_PER_HASH_TABLE_LEVEL 2 = 4913000 := rfl
  have hH : HASHES_PER_HASH_TABLE = 170 := rfl
  refine ⟨?_, ?_, by rfl, by rfl, by rfl, by rfl⟩
  · intro c l
    simp only [root_hash_table_level, mkStfsVD, hH, hL1, hL2]
    cases l with
    | First =>
      simp only [levelIndex, hL0]
      constructor
      · intro h
        split_ifs at h with h1 h2 h3
        · exact ⟨h1, fun j hj => absurd hj (by omega)⟩
        · simp at h
        · simp at h
      · rintro ⟨hle, _⟩
        rw [if_pos hle]
    | Second =>
      simp only [levelIndex, hL0]
      constructor
      · intro h
        split_ifs at h with h1 h2 h3
        · simp at h
        · refine ⟨h2, ?_⟩
          intro j hj
          have hj0 : j = 0 := by omega
          subst hj0
          rw [hL0]
          omega
        · simp at h
      · rintro ⟨hle, hmin⟩
        rw [hL1] at hle
        have h170 := hmin 0 (by omega)
        rw [hL0] at h170
        rw [if_neg (by omega), if_pos hle]
    | Third =>
      simp only [levelIndex]
      constructor
      · intro h
        split_ifs at h with h1 h2 h3
        · simp at h
        · simp at h
        · refine ⟨by rw [hL2]; exact h3, ?_⟩
          intro j hj
          have hj01 : j = 0 ∨ j = 1 := by omega
          rcases hj01 with hj0 | hj1
          · subst hj0
            rw [hL0]
            omega
          · subst hj1
            rw [hL1]
            omega
      · rintro ⟨hle, hmin⟩
        have h28900 := hmin 1 (by omega)
        rw [hL1] at h28900
        rw [hL2] at hle
        rw [if_neg (by omega), if_neg (by omega), if_pos hle]
  · intro c hc
    simp only [root_hash_table_level, mkStfsVD, hH, hL1, hL2]
    rw [if_neg (by omega), if_neg (by omega), if_neg (by omega)]

/-- Claim C6 witness: 4913001 allocated blocks exceed the L2 capacity and
decode to InvalidHeader. -/
theorem c6_root_hash_table_level_witness :
    (4913000 : Nat) < 4913001 ∧
    root_hash_table_level (FileSystem.STFS (mkStfsVD 4913001)) = .error .invalidHeader :=
  ⟨by decide, c6_root_hash_table_level.2.1 4913001 (by decide)⟩

/-- Claim C8: for each fixed package sex, the L0-backing table number
function compute_first_level_backing_hash_block_number is monotonically
nondecreasing in the logical block number over [0, 2^24). -/
theorem c8_table_index_monotone (sex : StfsPackageSex) (b1 b2 : Nat)
    (h12 : b1 ≤ b2) (hb : b2 < 2 ^ 24) :
    compute_first_level_backing_hash_block_number sex.block_step b1 sex ≤
      compute_first_level_backing_hash_block_number sex.block_step b2 sex := by
  have hH : HASHES_PER_HASH_TABLE = 170 := rfl
  have hD : DATA_BLOCKS_PER_HASH_TREE_LEVEL 2 = 28900 := rfl
  rcases sex with _ | _ <;>
    simp only [compute_first_level_backing_hash_block_number, StfsPackageSex.block_step,
      sexBit, hH, hD, Nat.shiftLeft_eq, pow_zero, pow_one] <;>
    split_ifs <;> omega

/-- Claim C8 witness: monotonicity at the concrete pair 5 ≤ 200 for a
Female package. -/
theorem c8_table_index_monotone_witness :
    (5 : Nat) ≤ 200 ∧ (200 : Nat) < 2 ^ 24 ∧
    compute_first_level_backing_hash_block_number StfsPackageSex.Female.block_step
        5 .Female ≤
      compute_first_level_backing_hash_block_number StfsPackageSex.Female.block_step
        200 .Female :=
  ⟨by decide, by decide, c8_table_index_monotone .Female 5 200 (by decide) (by decide)⟩

/- The explicit illegal-block panic of block_hash_address fires only on
   its guard: for a block within the allocated count every other outcome
   is an ok address or a different panic kind. -/
lemma block_hash_address_not_illegal (pkg : StfsPackage) (block : Nat)
    (h : ¬ block > pkg.allocated_block_count) :
    block_hash_address pkg block ≠ .crash .illegalBlock := by
  unfold block_hash_address
  rw [if_neg h]
  cases hL : pkg.top_table_level with
  | First => simp
  | Second =>
    dsimp only
    cases hg : pkg.top_table_entries.get? (block / DATA_BLOCKS_PER_HASH_TREE_LEVEL 1) with
    | none => simp
    | some e => simp
  | Third =>
    dsimp only
    cases hg : pkg.top_table_entries.get? (block / DATA_BLOCKS_PER_HASH_TREE_LEVEL 2) with
    | none => simp
    | some e =>
      dsimp only
      split_ifs <;> simp

/- Same for block_hash_entry. -/
lemma block_hash_entry_not_illegal (pkg : StfsPackage) (block : Nat)
    (h : ¬ block > pkg.allocated_block_count) :
    block_hash_entry pkg block ≠ .crash .illegalBlock := by
  unfold block_hash_entry
  rw [if_neg h]
  cases ha : block_hash_address pkg block with
  | err e => simp
  | crash k =>
    have hnot := block_hash_address_not_illegal pkg block h
    rw [ha] at hnot
    simp only [ne_eq, PRes.crash.injEq] at hnot ⊢
    exact hnot
  | ok addr =>
    dsimp only
    split_ifs <;> simp

/-- Claim C10: block_hash_entry and block_hash_address reject a block
number (with their illegal-block panic) exactly when it is strictly
greater than allocated_block_count, so the out-of-range block number
equal to allocated_block_count is accepted without error; and
block_to_addr accepts any block number up to 2^24 - 1 regardless of the
package's allocated_block_count. -/
theorem c10_block_guards :
    (∀ pkg block, block_hash_address pkg block = .crash .illegalBlock ↔
      pkg.allocated_block_count < block) ∧
    (∀ pkg block, block_hash_entry pkg block = .crash .illegalBlock ↔
      pkg.allocated_block_count < block) ∧
    PRes.isOk (block_hash_entry pkgBoundary pkgBoundary.allocated_block_count) = true ∧
    (∀ pkg block, block ≤ 2 ^ 24 - 1 → PRes.isOk (block_to_addr pkg block) = true) := by
  refine ⟨?_, ?_, by decide, ?_⟩
  · intro pkg block
    constructor
    · intro h
      by_contra hb
      exact block_hash_address_not_illegal pkg block hb h
    · intro h
      unfold block_hash_address
      rw [if_pos h]
  · intro pkg block
    constructor
    · intro h
      by_contra hb
      exact block_hash_entry_not_illegal pkg block hb h
    · intro h
      unfold block_hash_entry
      rw [if_pos h]
  · intro pkg block h
    unfold block_to_addr
    rw [if_neg (Nat.not_lt.mpr h)]
    rfl

/-- Claim C10 witness: for pkgBoundary (100 allocated blocks), block 101
is rejected by both functions, and block_to_addr accepts block 5. -/
theorem c10_block_guards_witness :
    pkgBoundary.allocated_block_count < 101 ∧
    block_hash_address pkgBoundary 101 = .crash .illegalBlock ∧
    block_hash_entry pkgBoundary 101 = .crash .illegalBlock ∧
    (5 : Nat) ≤ 2 ^ 24 - 1 ∧
    PRes.isOk (block_to_addr pkgFemale 5) = true :=
  ⟨by decide, (c10_block_guards.1 pkgBoundary 101).mpr (by decide),
   (c10_block_guards.2.1 pkgBoundary 101).mpr (by decide), by decide,
   c10_block_guards.2.2.2 pkgFemale 5 (by decide)⟩
